import Mathlib

/-!
Shallow embedding of the greencamp scoreboard app (`src/app.py`): a
session-scoped incremental match-polling and aggregation engine.

Modelling conventions:
* Wall-clock instants (`datetime` values and `time.time()` readings) are
  integers.  `datetime.fromtimestamp(ts / 1000)` converts a millisecond
  epoch value to a `datetime`; since the conversion is strictly monotone
  and injective we keep the instant itself (the integer) as the
  `datetime`, so all comparisons are preserved.
* Python truthiness on optional numbers (`a or b`, `if ts`) treats both
  `None` and `0` as falsy; `truthyTs` reproduces this.
* The Supabase row stores are embedded as Lean lists of records;
  `upsert(..., on_conflict=k)` is insert-or-update keyed by `k`
  (PostgREST resolution "merge-duplicates": an existing row with the
  same key is updated with the new values, otherwise the row is
  appended).
* External I/O (`requests.get` against the Riot API) is a parameter:
  the poll cycle takes the functions `fetchIds` (recent match-id list
  per puuid) and `fetchDetail` (match detail per match id) as inputs,
  and a `clock` giving the wall-clock reading of each
  `datetime.now()` call made inside `parse_match_for_player`.
-/

/-- Config constant `SOLOQ_QUEUE_ID = 420` from app.py. -/
def SOLOQ_QUEUE_ID : Int := 420

/-- Config constant `POLL_SEC = 60` from app.py. -/
def POLL_SEC : Int := 60

/-- Config constant `ALERT_SHOW_SEC = 4` from app.py. -/
def ALERT_SHOW_SEC : Int := 4

/-- One entry of `info["participants"]` in a Riot match detail:
the participant's puuid and the optional `win` flag. -/
structure Participant where
  puuid : String
  win : Option Bool
deriving DecidableEq, Repr

/-- The `info` object of a Riot match detail record, with the fields
read by `parse_match_for_player`. -/
structure MatchInfo where
  queueId : Option Int
  gameEndTimestamp : Option Int
  gameStartTimestamp : Option Int
  participants : List Participant
deriving DecidableEq, Repr

/-- A fetched match detail (`get_match_detail` result). -/
structure MatchDetail where
  info : MatchInfo
deriving DecidableEq, Repr

/-- Python truthiness of an optional millisecond timestamp:
`None` and `0` are falsy. -/
def truthyTs : Option Int → Bool
  | none => false
  | some t => t != 0

/-- Python `a or b` on optional timestamps: `a` when truthy, else `b`. -/
def pyOrTs (a b : Option Int) : Option Int :=
  if truthyTs a then a else b

/-- The `for p in info.get("participants", [])` loop of
`parse_match_for_player`: the first participant whose puuid matches
yields `bool(p.get("win"))` (`bool(None) = False`); no match yields
`None`. -/
def findWin : List Participant → String → Option Bool
  | [], _ => none
  | p :: ps, puuid =>
    if p.puuid == puuid then some (p.win.getD false) else findWin ps puuid

/-- `parse_match_for_player(match_detail, puuid)` from app.py.
`now` is the reading of the `datetime.now(tz=timezone.utc)` call that
the function makes when neither timestamp is truthy.  Returns
`(queue_id, played_at, win_val)`. -/
def parse_match_for_player (d : MatchDetail) (puuid : String) (now : Int) :
    Option Int × Int × Option Bool :=
  let ts := pyOrTs d.info.gameEndTimestamp d.info.gameStartTimestamp
  let played_at := if truthyTs ts then ts.getD 0 else now
  (d.info.queueId, played_at, findWin d.info.participants puuid)

/-- One row of the `session_results` table. -/
structure ResultRow where
  session_id : Int
  nickname : String
  match_id : String
  win : Bool
  played_at : Int
deriving DecidableEq, Repr

/-- The composite identity `session_id, nickname, match_id` used as the
`on_conflict` key of `insert_results`. -/
def rowKey (r : ResultRow) : Int × String × String :=
  (r.session_id, r.nickname, r.match_id)

/-- Upsert of a single row into `session_results` keyed by
`rowKey` (PostgREST merge-duplicates): update the existing row with
the same key if there is one, append otherwise. -/
def upsertRow (store : List ResultRow) (r : ResultRow) : List ResultRow :=
  if store.any (fun s => rowKey s == rowKey r) then
    store.map (fun s => if rowKey s == rowKey r then r else s)
  else
    store ++ [r]

/-- `insert_results(rows)` from app.py: one idempotent batch upsert
keyed by `session_id,nickname,match_id` (a no-op on an empty batch). -/
def insert_results (store : List ResultRow) (rows : List ResultRow) :
    List ResultRow :=
  rows.foldl upsertRow store

/-- `existing_match_ids(session_id, riot_id, match_ids)` from app.py:
the set of match ids among `match_ids` already recorded for this
(session, player) pair (returned as the list of matching `match_id`
column values; the Python set only serves membership tests). -/
def existing_match_ids (store : List ResultRow) (session_id : Int)
    (riot_id : String) (match_ids : List String) : List String :=
  if match_ids.isEmpty then []
  else
    (store.filter (fun r =>
      r.session_id == session_id && r.nickname == riot_id &&
        match_ids.contains r.match_id)).map (·.match_id)

/-- `new_ids = [m for m in mids if m not in exist]` from the poll loop. -/
def new_ids (store : List ResultRow) (session_id : Int) (riot_id : String)
    (mids : List String) : List String :=
  mids.filter (fun m => !(existing_match_ids store session_id riot_id mids).contains m)

/-- A match id is recorded for a (session, player) pair when a row with
that composite identity is in the store. -/
def recordedFor (store : List ResultRow) (session_id : Int) (riot_id : String)
    (m : String) : Prop :=
  ∃ r ∈ store, r.session_id = session_id ∧ r.nickname = riot_id ∧ r.match_id = m

instance (store : List ResultRow) (session_id : Int) (riot_id : String)
    (m : String) : Decidable (recordedFor store session_id riot_id m) := by
  unfold recordedFor; infer_instance

/-- A match detail is session-qualifying and produces a pending insert
row exactly as in the loop body of app.py lines 321–343: the detail is
present, the queue is the configured solo-queue id, `played_at` lies in
`[start_dt, now]`, and the detail attributes a win/loss to the player.
`clock mid` is the wall-clock reading of the `datetime.now()` call made
inside `parse_match_for_player` for this match. -/
def processMatch (fetchDetail : String → Option MatchDetail)
    (clock : String → Int) (session_id : Int) (riot_id : String)
    (puuid : String) (start_dt now : Int) (mid : String) :
    Option ResultRow :=
  match fetchDetail mid with
  | none => none
  | some detail =>
    let parsed := parse_match_for_player detail puuid (clock mid)
    let queue_id := parsed.1
    let played_at := parsed.2.1
    let win_val := parsed.2.2
    if queue_id ≠ some SOLOQ_QUEUE_ID then none
    else if played_at < start_dt ∨ played_at > now then none
    else match win_val with
      | none => none
      | some w =>
        some ⟨session_id, riot_id, mid, w, played_at⟩

/-- One row of the `session_players` table. -/
structure PlayerEntry where
  real_name : Option String
  nickname : String
  puuid : String
  team : String
deriving DecidableEq, Repr

/-- Python truthiness of an optional string: `None` and `""` are falsy. -/
def truthyStr : Option String → Bool
  | none => false
  | some s => s != ""

/-- `real_name = p.get("real_name") or p["nickname"]` from the poll loop. -/
def displayName (p : PlayerEntry) : String :=
  if truthyStr p.real_name then p.real_name.getD "" else p.nickname

/-- An external Riot-API call made during a poll cycle: either the
recent-match-id list for a puuid, or the detail of one match id. -/
inductive ExtCall where
  | listIds (puuid : String)
  | detail (match_id : String)
deriving DecidableEq, Repr

/-- Output of the per-player part of the poll loop. -/
structure PlayerPollOut where
  detailFetched : List String
  inserts : List ResultRow
  events : List (String × Bool)
deriving DecidableEq, Repr

/-- The per-player body of the poll loop (app.py lines 311–347 for one
player): dedup against the store, then fetch detail for each unseen id
and classify; `events` pairs the display name with the win flag as the
loop appends to `new_events`. -/
def pollPlayer (fetchDetail : String → Option MatchDetail)
    (clock : String → Int) (store : List ResultRow) (session_id : Int)
    (p : PlayerEntry) (mids : List String) (start_dt now : Int) :
    PlayerPollOut :=
  let nids := new_ids store session_id p.nickname mids
  { detailFetched := nids
    inserts := nids.filterMap
      (processMatch fetchDetail clock session_id p.nickname p.puuid start_dt now)
    events := nids.filterMap (fun mid =>
      (processMatch fetchDetail clock session_id p.nickname p.puuid start_dt now mid).map
        (fun r => (displayName p, r.win))) }

/-- The single-slot notification state (`st.session_state["alert_*"]`). -/
structure AlertState where
  alert_until : Int
  alert_text : String
deriving DecidableEq, Repr

/-- Recording a new event (app.py lines 352–353): overwrite the text
slot and set the expiry to `time.time() + ALERT_SHOW_SEC`. -/
def recordEvent (wallclock : Int) (text : String) (_st : AlertState) :
    AlertState :=
  { alert_text := text, alert_until := wallclock + ALERT_SHOW_SEC }

/-- `show_alert = time.time() < st.session_state["alert_until"]`
(app.py line 461). -/
def show_alert (wallclock : Int) (st : AlertState) : Bool :=
  wallclock < st.alert_until

/-- `f"{n} {'승리' if r=='W' else '패배'}"` for the latest event. -/
def eventText (e : String × Bool) : String :=
  e.1 ++ " " ++ (if e.2 then "승리" else "패배")

/-- An observable action of one poll cycle, in program order: a batch
write to `session_results` (one per player) or the notification-state
update at the end of the cycle. -/
inductive PollEvent where
  | insertBatch (rows : List ResultRow)
  | notify (text : String)
deriving DecidableEq, Repr

/-- `PollEvent` classifiers. -/
def PollEvent.isInsert : PollEvent → Bool
  | .insertBatch _ => true
  | .notify _ => false

def PollEvent.isNotify : PollEvent → Bool
  | .insertBatch _ => false
  | .notify _ => true

/-- Accumulated outcome of the `for p in players` loop. -/
structure PollAcc where
  store : List ResultRow
  trace : List PollEvent
  ext : List ExtCall
  events : List (String × Bool)
deriving Repr

/-- The `for p in players` loop of the poll cycle: each player's
match-id list is fetched, deduped, classified, and the player's batch
is written with `insert_results` before the next player is processed.
The trace records each store write in program order. -/
def pollPlayers (fetchIds : String → List String)
    (fetchDetail : String → Option MatchDetail) (clock : String → Int)
    (session_id : Int) (start_dt now : Int) :
    List PlayerEntry → List ResultRow → PollAcc
  | [], store => ⟨store, [], [], []⟩
  | p :: ps, store =>
    let mids := fetchIds p.puuid
    let out := pollPlayer fetchDetail clock store session_id p mids start_dt now
    let store1 := insert_results store out.inserts
    let rest := pollPlayers fetchIds fetchDetail clock session_id start_dt now ps store1
    ⟨rest.store,
     PollEvent.insertBatch out.inserts :: rest.trace,
     (ExtCall.listIds p.puuid :: out.detailFetched.map ExtCall.detail) ++ rest.ext,
     out.events ++ rest.events⟩

/-- Result of one full poll cycle. -/
structure CycleOut where
  store : List ResultRow
  alert : AlertState
  trace : List PollEvent
  ext : List ExtCall
deriving Repr

/-- One full poll cycle (app.py lines 305–353): poll every roster
player, then — only after all per-player writes — update the
notification state from the last detected event if any
(`if new_events: ... new_events[-1]`). -/
def runCycle (fetchIds : String → List String)
    (fetchDetail : String → Option MatchDetail) (clock : String → Int)
    (players : List PlayerEntry) (store : List ResultRow)
    (session_id : Int) (start_dt now : Int) (alert : AlertState)
    (wallclock : Int) : CycleOut :=
  let acc := pollPlayers fetchIds fetchDetail clock session_id start_dt now players store
  match acc.events.getLast? with
  | some e =>
    ⟨acc.store, recordEvent wallclock (eventText e) alert,
     acc.trace ++ [PollEvent.notify (eventText e)], acc.ext⟩
  | none => ⟨acc.store, alert, acc.trace, acc.ext⟩

/-- One row of the `sessions` table. -/
structure Session where
  id : Int
  title : String
  duration_minutes : Int
  team_a_name : String
  team_b_name : String
  started_at : Option Int
  ended_at : Option Int
deriving DecidableEq, Repr

/-- The serial id the database assigns to a newly inserted session. -/
def nextSessionId (store : List Session) : Int :=
  (store.map (·.id)).foldl max 0 + 1

/-- `create_session(title, duration_minutes, team_a_name, team_b_name)`
from app.py: an unconditional insert; `started_at` and `ended_at`
default to null.  No check against existing active sessions is made. -/
def create_session (store : List Session) (title : String)
    (duration_minutes : Int) (team_a_name team_b_name : String) :
    List Session :=
  store ++ [{ id := nextSessionId store, title := title,
              duration_minutes := duration_minutes,
              team_a_name := team_a_name, team_b_name := team_b_name,
              started_at := none, ended_at := none }]

/-- `get_active_session()` from app.py: among rows with
`ended_at is null`, the one with the largest id (`order by id desc
limit 1`), or none. -/
def get_active_session (store : List Session) : Option Session :=
  (store.filter (fun s => s.ended_at.isNone)).foldl
    (fun acc s =>
      match acc with
      | none => some s
      | some a => if a.id < s.id then some s else some a)
    none

/-- `start_session(session_id)` from app.py: set `started_at` of the
matching row to the current time, unconditionally (no already-started
guard). -/
def start_session (store : List Session) (session_id : Int) (now : Int) :
    List Session :=
  store.map (fun s =>
    if s.id == session_id then { s with started_at := some now } else s)

/-- `end_session(session_id)` from app.py: set `ended_at` of the
matching row to the current time. -/
def end_session (store : List Session) (session_id : Int) (now : Int) :
    List Session :=
  store.map (fun s =>
    if s.id == session_id then { s with ended_at := some now } else s)

/-- Number of sessions whose `ended_at` is null. -/
def countActive (store : List Session) : Nat :=
  (store.filter (fun s => s.ended_at.isNone)).length

/-- `load_results(session_id)` from app.py: all `session_results` rows
of the session. -/
def load_results (store : List ResultRow) (session_id : Int) :
    List ResultRow :=
  store.filter (fun r => r.session_id == session_id)

/-- `wl(riot_id)` from app.py: the (wins, losses) of one player over
the loaded results (`df_res`), `(0, 0)` on an empty frame. -/
def wl (results : List ResultRow) (riot_id : String) : Nat × Nat :=
  if results.isEmpty then (0, 0)
  else
    let sub := results.filter (fun r => r.nickname == riot_id)
    ((sub.filter (fun r => r.win)).length,
     (sub.filter (fun r => !r.win)).length)

/-- `team_wins(team_list)` from app.py: the number of win rows whose
nickname is on the team, `0` on an empty frame. -/
def team_wins (results : List ResultRow) (team_list : List String) : Nat :=
  if results.isEmpty then 0
  else
    ((results.filter (fun r => team_list.contains r.nickname)).filter
      (fun r => r.win)).length

/-- Result of one UI tick as far as the poll step is concerned. -/
structure TickOut where
  store : List ResultRow
  alert : AlertState
  last_poll_ts : Int
  trace : List PollEvent
  ext : List ExtCall
deriving Repr

/-- One tick of the app for the loaded active session (app.py lines
302–353): `do_poll = (not ended_at) and started_at and
(time.time() - last_poll_ts >= POLL_SEC)`; the cycle runs only when
`do_poll` holds and the roster is non-empty, and then updates
`last_poll_ts`.  Otherwise nothing is fetched and nothing is written. -/
def tick (fetchIds : String → List String)
    (fetchDetail : String → Option MatchDetail) (clock : String → Int)
    (sess : Session) (players : List PlayerEntry)
    (store : List ResultRow) (alert : AlertState)
    (last_poll_ts wallclock now : Int) : TickOut :=
  let do_poll := sess.ended_at.isNone && sess.started_at.isSome &&
    decide (POLL_SEC ≤ wallclock - last_poll_ts)
  if do_poll && !players.isEmpty then
    match sess.started_at with
    | some start_dt =>
      let c := runCycle fetchIds fetchDetail clock players store sess.id
        start_dt now alert wallclock
      ⟨c.store, c.alert, wallclock, c.trace, c.ext⟩
    | none => ⟨store, alert, last_poll_ts, [], []⟩
  else ⟨store, alert, last_poll_ts, [], []⟩

/-! ## Helper lemmas -/

theorem contains_iff_mem {α : Type} [BEq α] [LawfulBEq α] (l : List α) (a : α) :
    l.contains a = true ↔ a ∈ l :=
  List.elem_iff

theorem mem_new_ids (store : List ResultRow) (session_id : Int)
    (riot_id : String) (mids : List String) (m : String) :
    m ∈ new_ids store session_id riot_id mids ↔
      m ∈ mids ∧ ¬ recordedFor store session_id riot_id m := by
  unfold new_ids existing_match_ids recordedFor
  cases mids with
  | nil => simp
  | cons a l =>
    simp only [List.isEmpty_cons, if_neg Bool.false_ne_true, List.mem_filter,
      Bool.not_eq_true']
    rw [Bool.eq_false_iff, Ne, contains_iff_mem]
    simp only [List.mem_map, List.mem_filter, Bool.and_eq_true, beq_iff_eq]
    constructor
    · rintro ⟨hm, hnot⟩
      refine ⟨hm, ?_⟩
      rintro ⟨r, hr, h1, h2, h3⟩
      exact hnot ⟨r, ⟨hr, ⟨h1, h2⟩, (contains_iff_mem _ _).mpr (h3 ▸ hm)⟩, h3⟩
    · rintro ⟨hm, hnot⟩
      refine ⟨hm, ?_⟩
      rintro ⟨r, ⟨hrs, ⟨h1, h2⟩, _⟩, h3⟩
      exact hnot ⟨r, hrs, h1, h2, h3⟩

/-! ## C2 -/

/-- C2: in every poll cycle, for every roster player, the set of match
ids for which the poller fetches full match detail
(`pollPlayer ... |>.detailFetched`, which by construction of
`pollPlayer` is the dedup set difference `new_ids`, computed before any
detail fetch) is exactly the freshly fetched set minus the ids already
recorded for this (session, player) pair: an id in both the fetched set
and the recorded set is never detail-fetched. -/
theorem C2_dedup_detail_fetch_only_unseen
    (fetchDetail : String → Option MatchDetail) (clock : String → Int)
    (store : List ResultRow) (session_id : Int) (p : PlayerEntry)
    (mids : List String) (start_dt now : Int) (m : String) :
    m ∈ (pollPlayer fetchDetail clock store session_id p mids start_dt now).detailFetched ↔
      m ∈ mids ∧ ¬ recordedFor store session_id p.nickname m :=
  mem_new_ids store session_id p.nickname mids m

/-! ## C1 -/

/-- C1 counterexample: inserting two rows with the same composite
identity but opposite outcomes leaves exactly one stored record, but
that record carries the outcome of the SECOND insert (`win = false`),
not the first (`win = true`): `insert_results` is an upsert whose
conflict resolution updates the existing row. -/
theorem C1_counterexample :
    insert_results (insert_results [] [⟨1, "p1", "M1", true, 10⟩])
        [⟨1, "p1", "M1", false, 10⟩] =
      [⟨1, "p1", "M1", false, 10⟩] ∧
    (false : Bool) ≠ (true : Bool) := by
  exact ⟨rfl, by decide⟩

/-- C1 (amended): inserting a result with the same composite identity
(session, handle, match id) twice leaves exactly one stored record and
is not an error, but the record carries the outcome of the MOST RECENT
insert (the second insert updates the row in place rather than being a
no-op); when both inserts carry the same outcome this coincides with
the first insert's outcome. -/
theorem C1_insert_same_identity_twice
    (store : List ResultRow) (r1 r2 : ResultRow)
    (hk : rowKey r1 = rowKey r2)
    (hfresh : ∀ r ∈ store, rowKey r ≠ rowKey r1) :
    insert_results (insert_results store [r1]) [r2] = store ++ [r2] := by
  show upsertRow (upsertRow store r1) r2 = store ++ [r2]
  have e1 : upsertRow store r1 = store ++ [r1] := by
    unfold upsertRow
    rw [if_neg]
    intro h
    rcases List.any_eq_true.mp h with ⟨s, hs, hbeq⟩
    exact hfresh s hs (beq_iff_eq.mp hbeq)
  rw [e1]
  unfold upsertRow
  rw [if_pos]
  · rw [List.map_append]
    have hstore : store.map
        (fun s => if rowKey s == rowKey r2 then r2 else s) = store := by
      conv_rhs => rw [← List.map_id store]
      apply List.map_congr_left
      intro s hs
      rw [if_neg, id]
      intro hbeq
      exact hfresh s hs (hk ▸ beq_iff_eq.mp hbeq)
    rw [hstore]
    congr 1
    simp [hk]
  · exact List.any_eq_true.mpr
      ⟨r1, by simp, beq_iff_eq.mpr hk⟩

/-- Witness for `C1_insert_same_identity_twice` at a concrete input. -/
theorem C1_insert_same_identity_twice_witness :
    rowKey ⟨2, "q", "MM", true, 3⟩ = rowKey ⟨2, "q", "MM", false, 4⟩ ∧
    insert_results (insert_results [⟨9, "z", "ZZ", true, 0⟩] [⟨2, "q", "MM", true, 3⟩])
        [⟨2, "q", "MM", false, 4⟩] =
      [⟨9, "z", "ZZ", true, 0⟩] ++ [⟨2, "q", "MM", false, 4⟩] :=
  ⟨by decide, C1_insert_same_identity_twice [⟨9, "z", "ZZ", true, 0⟩] _ _ (by decide)
    (by intro r hr; simp at hr; subst hr; decide)⟩

/-- Characterization of the loop body: a fetched detail yields a row
iff the queue, window and outcome conditions all hold. -/
theorem processMatch_isSome_iff
    (fetchDetail : String → Option MatchDetail) (clock : String → Int)
    (session_id : Int) (riot_id puuid : String) (start_dt now : Int)
    (mid : String) (detail : MatchDetail)
    (hfd : fetchDetail mid = some detail) :
    (processMatch fetchDetail clock session_id riot_id puuid start_dt now mid).isSome = true ↔
      (detail.info.queueId = some SOLOQ_QUEUE_ID ∧
       (start_dt ≤ (parse_match_for_player detail puuid (clock mid)).2.1 ∧
        (parse_match_for_player detail puuid (clock mid)).2.1 ≤ now) ∧
       (findWin detail.info.participants puuid).isSome = true) := by
  simp only [processMatch, hfd]
  have h1 : (parse_match_for_player detail puuid (clock mid)).1 = detail.info.queueId := rfl
  have h2 : (parse_match_for_player detail puuid (clock mid)).2.2 =
      findWin detail.info.participants puuid := rfl
  rw [h1, h2]
  set pa := (parse_match_for_player detail puuid (clock mid)).2.1 with hpa
  by_cases hq : detail.info.queueId = some SOLOQ_QUEUE_ID
  · by_cases hcond : pa < start_dt ∨ now < pa
    · rw [if_neg (by simp [hq]), if_pos (by exact hcond)]
      simp only [Option.isSome_none, Bool.false_eq_true, false_iff]
      rintro ⟨-, ⟨hlo, hhi⟩, -⟩
      omega
    · rw [if_neg (by simp [hq]), if_neg hcond]
      cases hfw : findWin detail.info.participants puuid with
      | none => simp [hq]
      | some w => simp [hq]; omega
  · rw [if_pos (by simp [hq])]
    simp [hq]

/-! ## C3 -/

/-- C3: a fetched match detail is recorded as a result row if and only
if all three conditions hold: the queue designator equals the single
configured qualifying value `SOLOQ_QUEUE_ID`, the parsed played-at time
lies in the session window `[start_dt, now]`, and the detail contains a
win/loss outcome for the polled player; a match failing any condition
is skipped (the loop body yields `none`). -/
theorem C3_recorded_iff_queue_window_outcome
    (fetchDetail : String → Option MatchDetail) (clock : String → Int)
    (session_id : Int) (riot_id puuid : String) (start_dt now : Int)
    (mid : String) (detail : MatchDetail)
    (hfd : fetchDetail mid = some detail) :
    (processMatch fetchDetail clock session_id riot_id puuid start_dt now mid).isSome = true ↔
      (detail.info.queueId = some SOLOQ_QUEUE_ID ∧
       (start_dt ≤ (parse_match_for_player detail puuid (clock mid)).2.1 ∧
        (parse_match_for_player detail puuid (clock mid)).2.1 ≤ now) ∧
       (findWin detail.info.participants puuid).isSome = true) :=
  processMatch_isSome_iff fetchDetail clock session_id riot_id puuid
    start_dt now mid detail hfd

/-- Witness for `C3_recorded_iff_queue_window_outcome` at a concrete
input: one qualifying solo-queue match inside the window. -/
theorem C3_recorded_iff_queue_window_outcome_witness :
    (fun (_ : String) => some (⟨⟨some 420, some 60000, none, [⟨"PU", some true⟩]⟩⟩ : MatchDetail)) "M1" =
      some ⟨⟨some 420, some 60000, none, [⟨"PU", some true⟩]⟩⟩ ∧
    ((processMatch (fun _ => some ⟨⟨some 420, some 60000, none, [⟨"PU", some true⟩]⟩⟩)
        (fun _ => 50) 1 "p1" "PU" 0 100000 "M1").isSome = true ↔
      ((⟨⟨some 420, some 60000, none, [⟨"PU", some true⟩]⟩⟩ : MatchDetail).info.queueId = some SOLOQ_QUEUE_ID ∧
       (0 ≤ (parse_match_for_player ⟨⟨some 420, some 60000, none, [⟨"PU", some true⟩]⟩⟩ "PU" ((fun (_ : String) => (50 : Int)) "M1")).2.1 ∧
        (parse_match_for_player ⟨⟨some 420, some 60000, none, [⟨"PU", some true⟩]⟩⟩ "PU" ((fun (_ : String) => (50 : Int)) "M1")).2.1 ≤ 100000) ∧
       (findWin (⟨⟨some 420, some 60000, none, [⟨"PU", some true⟩]⟩⟩ : MatchDetail).info.participants "PU").isSome = true)) :=
  ⟨rfl, C3_recorded_iff_queue_window_outcome
    (fun _ => some ⟨⟨some 420, some 60000, none, [⟨"PU", some true⟩]⟩⟩)
    (fun _ => 50) 1 "p1" "PU" 0 100000 "M1" _ rfl⟩

/-! ## C4 -/

/-- C4: for a fetched match of the correct queue type with an outcome
for the player, the loop body never records it when its played-at time
is strictly before `start_dt` or strictly after `now`, while a match
played at exactly `start_dt` (with the poll running at or after the
session start) is recorded: the window's lower bound is inclusive. -/
theorem C4_window_strict_outside_inclusive_lower
    (fetchDetail : String → Option MatchDetail) (clock : String → Int)
    (session_id : Int) (riot_id puuid : String) (start_dt now : Int)
    (mid : String) (detail : MatchDetail) (w : Bool)
    (hfd : fetchDetail mid = some detail)
    (hq : detail.info.queueId = some SOLOQ_QUEUE_ID)
    (hw : findWin detail.info.participants puuid = some w) :
    (((parse_match_for_player detail puuid (clock mid)).2.1 < start_dt ∨
      now < (parse_match_for_player detail puuid (clock mid)).2.1) →
      processMatch fetchDetail clock session_id riot_id puuid start_dt now mid = none) ∧
    ((parse_match_for_player detail puuid (clock mid)).2.1 = start_dt →
      start_dt ≤ now →
      processMatch fetchDetail clock session_id riot_id puuid start_dt now mid =
        some ⟨session_id, riot_id, mid, w,
          (parse_match_for_player detail puuid (clock mid)).2.1⟩) := by
  simp only [processMatch, hfd]
  have h1 : (parse_match_for_player detail puuid (clock mid)).1 = detail.info.queueId := rfl
  have h2 : (parse_match_for_player detail puuid (clock mid)).2.2 =
      findWin detail.info.participants puuid := rfl
  rw [h1, h2]
  set pa := (parse_match_for_player detail puuid (clock mid)).2.1 with hpa
  constructor
  · intro hcond
    rw [if_neg (by simp [hq]), if_pos (by exact hcond)]
  · intro heq hle
    rw [if_neg (by simp [hq]), if_neg (by omega), hw]

/-- Witness for `C4_window_strict_outside_inclusive_lower` at a
concrete input: a match played exactly at the session start. -/
theorem C4_window_strict_outside_inclusive_lower_witness :
    (fun (_ : String) => some (⟨⟨some 420, some 7000, none, [⟨"PU", some false⟩]⟩⟩ : MatchDetail)) "M2" =
      some ⟨⟨some 420, some 7000, none, [⟨"PU", some false⟩]⟩⟩ ∧
    (⟨⟨some 420, some 7000, none, [⟨"PU", some false⟩]⟩⟩ : MatchDetail).info.queueId = some SOLOQ_QUEUE_ID ∧
    findWin (⟨⟨some 420, some 7000, none, [⟨"PU", some false⟩]⟩⟩ : MatchDetail).info.participants "PU" = some false ∧
    (parse_match_for_player ⟨⟨some 420, some 7000, none, [⟨"PU", some false⟩]⟩⟩ "PU" ((fun (_ : String) => (0 : Int)) "M2")).2.1 = 7000 ∧
    (7000 : Int) ≤ 90000 ∧
    processMatch (fun _ => some ⟨⟨some 420, some 7000, none, [⟨"PU", some false⟩]⟩⟩)
        (fun _ => 0) 1 "p1" "PU" 7000 90000 "M2" =
      some ⟨1, "p1", "M2", false,
        (parse_match_for_player ⟨⟨some 420, some 7000, none, [⟨"PU", some false⟩]⟩⟩ "PU" ((fun (_ : String) => (0 : Int)) "M2")).2.1⟩ :=
  ⟨rfl, rfl, rfl, rfl, by decide,
    (C4_window_strict_outside_inclusive_lower
      (fun _ => some ⟨⟨some 420, some 7000, none, [⟨"PU", some false⟩]⟩⟩)
      (fun _ => 0) 1 "p1" "PU" 7000 90000 "M2" _ false rfl rfl rfl).2 rfl (by decide)⟩

/-! ## C10 -/

/-- C10 counterexample: a detail with neither timestamp, the correct
queue and an outcome for the player — so the queue and player-outcome
conditions hold — is nevertheless NOT recorded when the `datetime.now()`
reading taken inside `parse_match_for_player` (101) is later than the
cycle's `now` captured before the loop (100): `played_at > now` fails
the window's upper bound, refuting "such a match always satisfies the
session time window's upper bound and is recorded whenever the queue
and player-outcome conditions hold". -/
theorem C10_counterexample :
    (⟨⟨some 420, none, none, [⟨"PU", some true⟩]⟩⟩ : MatchDetail).info.queueId = some SOLOQ_QUEUE_ID ∧
    findWin (⟨⟨some 420, none, none, [⟨"PU", some true⟩]⟩⟩ : MatchDetail).info.participants "PU" = some true ∧
    (parse_match_for_player ⟨⟨some 420, none, none, [⟨"PU", some true⟩]⟩⟩ "PU" 101).2.1 = 101 ∧
    (0 : Int) ≤ 100 ∧
    processMatch (fun _ => some ⟨⟨some 420, none, none, [⟨"PU", some true⟩]⟩⟩)
        (fun _ => 101) 1 "p1" "PU" 0 100 "M1" = none := by
  refine ⟨rfl, rfl, rfl, by decide, rfl⟩

/-- C10 (amended): for a fetched detail whose record contains neither a
game-end nor a game-start timestamp, the parser assigns the wall-clock
time read at parse time (`clock mid`, the `datetime.now()` call inside
`parse_match_for_player`) as the played-at time; with the queue and
player-outcome conditions holding, such a match is recorded if and only
if that parse-time reading lies within `[started_at, now]` where `now`
is the cycle's earlier clock capture — so it is recorded when the two
readings coincide, even if the match was actually played before the
session started, but is skipped whenever the clock advanced past the
captured `now` before parsing. -/
theorem C10_missing_timestamps_fallback
    (fetchDetail : String → Option MatchDetail) (clock : String → Int)
    (session_id : Int) (riot_id puuid : String) (start_dt now : Int)
    (mid : String) (detail : MatchDetail) (w : Bool)
    (hfd : fetchDetail mid = some detail)
    (hend : detail.info.gameEndTimestamp = none)
    (hstart : detail.info.gameStartTimestamp = none)
    (hq : detail.info.queueId = some SOLOQ_QUEUE_ID)
    (hw : findWin detail.info.participants puuid = some w) :
    (parse_match_for_player detail puuid (clock mid)).2.1 = clock mid ∧
    ((processMatch fetchDetail clock session_id riot_id puuid start_dt now mid).isSome = true ↔
      (start_dt ≤ clock mid ∧ clock mid ≤ now)) := by
  have hpa : (parse_match_for_player detail puuid (clock mid)).2.1 = clock mid := by
    unfold parse_match_for_player pyOrTs
    rw [hend, hstart]
    simp [truthyTs]
  refine ⟨hpa, ?_⟩
  rw [processMatch_isSome_iff fetchDetail clock session_id riot_id puuid
    start_dt now mid detail hfd, hpa]
  simp [hq, hw]

/-- Witness for `C10_missing_timestamps_fallback` at a concrete input
where the parse-time reading equals the cycle's captured `now`. -/
theorem C10_missing_timestamps_fallback_witness :
    (fun (_ : String) => some (⟨⟨some 420, none, none, [⟨"PU", some true⟩]⟩⟩ : MatchDetail)) "M1" =
      some ⟨⟨some 420, none, none, [⟨"PU", some true⟩]⟩⟩ ∧
    ((parse_match_for_player ⟨⟨some 420, none, none, [⟨"PU", some true⟩]⟩⟩ "PU" ((fun (_ : String) => (100 : Int)) "M1")).2.1 = (fun (_ : String) => (100 : Int)) "M1" ∧
     ((processMatch (fun _ => some ⟨⟨some 420, none, none, [⟨"PU", some true⟩]⟩⟩)
         (fun _ => 100) 1 "p1" "PU" 0 100 "M1").isSome = true ↔
       ((0 : Int) ≤ (fun (_ : String) => (100 : Int)) "M1" ∧ (fun (_ : String) => (100 : Int)) "M1" ≤ 100))) :=
  ⟨rfl, C10_missing_timestamps_fallback
    (fun _ => some ⟨⟨some 420, none, none, [⟨"PU", some true⟩]⟩⟩)
    (fun _ => 100) 1 "p1" "PU" 0 100 "M1" _ true rfl rfl rfl rfl rfl⟩

theorem countP_or_disjoint {α : Type} (l : List α) (p q : α → Bool)
    (hdisj : ∀ a, p a = true → q a = false) :
    l.countP (fun a => p a || q a) = l.countP p + l.countP q := by
  induction l with
  | nil => simp
  | cons a t ih =>
    rw [List.countP_cons, List.countP_cons, List.countP_cons, ih]
    by_cases hp : p a = true
    · have hq := hdisj a hp
      simp [hp, hq]
      omega
    · rw [Bool.not_eq_true] at hp
      by_cases hq : q a = true
      · simp [hp, hq]; omega
      · rw [Bool.not_eq_true] at hq
        simp [hp, hq]

theorem wl_fst_countP (results : List ResultRow) (p : String) :
    (wl results p).1 = results.countP (fun r => r.nickname == p && r.win) := by
  unfold wl
  split
  · next h =>
    rw [List.isEmpty_iff] at h
    subst h
    rfl
  · dsimp only
    rw [List.filter_filter, List.countP_eq_length_filter]
    congr 1
    apply List.filter_congr
    intro a _
    exact Bool.and_comm _ _

theorem wl_snd_countP (results : List ResultRow) (p : String) :
    (wl results p).2 = results.countP (fun r => r.nickname == p && !r.win) := by
  unfold wl
  split
  · next h =>
    rw [List.isEmpty_iff] at h
    subst h
    rfl
  · dsimp only
    rw [List.filter_filter, List.countP_eq_length_filter]
    congr 1
    apply List.filter_congr
    intro a _
    exact Bool.and_comm _ _

theorem team_wins_countP (results : List ResultRow) (team_list : List String) :
    team_wins results team_list =
      results.countP (fun r => team_list.contains r.nickname && r.win) := by
  unfold team_wins
  split
  · next h =>
    rw [List.isEmpty_iff] at h
    subst h
    rfl
  · rw [List.filter_filter, List.countP_eq_length_filter]
    congr 1
    apply List.filter_congr
    intro a _
    exact Bool.and_comm _ _

theorem sum_wl_team (results : List ResultRow) (team_list : List String)
    (hnd : team_list.Nodup) :
    results.countP (fun r => team_list.contains r.nickname && r.win) =
      (team_list.map (fun q => results.countP (fun r => r.nickname == q && r.win))).sum := by
  induction team_list with
  | nil => simp
  | cons t ts ih =>
    rcases List.nodup_cons.mp hnd with ⟨hmem, hnd'⟩
    rw [List.map_cons, List.sum_cons, ← ih hnd']
    rw [← countP_or_disjoint results (fun r => r.nickname == t && r.win)
        (fun r => ts.contains r.nickname && r.win) ?_]
    · apply List.countP_congr
      intro r _
      by_cases hrt : r.nickname = t
      · have hb : (r.nickname == t) = true := beq_iff_eq.mpr hrt
        simp only [List.contains_cons, hb, Bool.true_or, Bool.true_and]
        cases hw : r.win <;> simp [hw]
      · have hb : (r.nickname == t) = false := by
          rw [Bool.eq_false_iff, Ne, beq_iff_eq]
          exact hrt
        simp only [List.contains_cons, hb, Bool.false_or, Bool.false_and]
    · intro r hp
      rw [Bool.and_eq_true, beq_iff_eq] at hp
      rw [Bool.and_eq_false_iff]
      left
      rw [hp.1]
      rw [Bool.eq_false_iff, Ne, contains_iff_mem]
      exact hmem

/-! ## C5 -/

/-- C5: for every loaded result set and every duplicate-free team
roster, the team's win total `team_wins` equals the sum of the
per-player win counts `(wl q).1` over the team, and for every player
the win count plus the loss count equals the total number of recorded
result rows for that player. -/
theorem C5_aggregation (results : List ResultRow) (team_list : List String)
    (p : String) (hnd : team_list.Nodup) :
    team_wins results team_list = (team_list.map (fun q => (wl results q).1)).sum ∧
    (wl results p).1 + (wl results p).2 =
      (results.filter (fun r => r.nickname == p)).length := by
  constructor
  · rw [team_wins_countP, sum_wl_team results team_list hnd]
    congr 1
    apply List.map_congr_left
    intro q _
    rw [wl_fst_countP]
  · rw [wl_fst_countP, wl_snd_countP]
    rw [← countP_or_disjoint results (fun r => r.nickname == p && r.win)
        (fun r => r.nickname == p && !r.win) ?_]
    · rw [List.countP_eq_length_filter]
      congr 1
      apply List.filter_congr
      intro a _
      cases hw : a.win <;> cases hb : (a.nickname == p) <;> simp [hw, hb]
    · intro a hp'
      rw [Bool.and_eq_true] at hp'
      rw [Bool.and_eq_false_iff]
      right
      simp [hp'.2]

/-- Witness for `C5_aggregation` at a concrete result set and team. -/
theorem C5_aggregation_witness :
    ([ "p1", "p2" ] : List String).Nodup ∧
    (team_wins [⟨1,"p1","M1",true,5⟩, ⟨1,"p1","M2",false,6⟩, ⟨1,"p2","M3",true,7⟩] ["p1", "p2"] =
        ((["p1", "p2"] : List String).map
          (fun q => (wl [⟨1,"p1","M1",true,5⟩, ⟨1,"p1","M2",false,6⟩, ⟨1,"p2","M3",true,7⟩] q).1)).sum ∧
     (wl [⟨1,"p1","M1",true,5⟩, ⟨1,"p1","M2",false,6⟩, ⟨1,"p2","M3",true,7⟩] "p1").1 +
        (wl [⟨1,"p1","M1",true,5⟩, ⟨1,"p1","M2",false,6⟩, ⟨1,"p2","M3",true,7⟩] "p1").2 =
      (([⟨1,"p1","M1",true,5⟩, ⟨1,"p1","M2",false,6⟩, ⟨1,"p2","M3",true,7⟩] : List ResultRow).filter
          (fun r => r.nickname == "p1")).length) :=
  ⟨by decide,
   C5_aggregation [⟨1,"p1","M1",true,5⟩, ⟨1,"p1","M2",false,6⟩, ⟨1,"p2","M3",true,7⟩]
     ["p1", "p2"] "p1" (by decide)⟩

/-! ## C6 -/

/-- Every event emitted by the per-player loop is a store write. -/
theorem pollPlayers_trace_insert (fetchIds : String → List String)
    (fetchDetail : String → Option MatchDetail) (clock : String → Int)
    (session_id : Int) (start_dt now : Int) :
    ∀ (ps : List PlayerEntry) (store : List ResultRow),
      ∀ e ∈ (pollPlayers fetchIds fetchDetail clock session_id start_dt now ps store).trace,
        e.isInsert = true := by
  intro ps
  induction ps with
  | nil =>
    intro store e he
    simp [pollPlayers] at he
  | cons p ps ih =>
    intro store e he
    simp only [pollPlayers] at he
    rcases List.mem_cons.mp he with h | h
    · subst h; rfl
    · exact ih _ e h

/-- C6: in the trace of one poll cycle every store write (a per-player
`insert_results` batch, emitted inside the player loop) occurs strictly
before the Notification State update (emitted only after the loop, from
`new_events[-1]`): all newly detected qualifying results are persisted
before the notification is updated. -/
theorem C6_persist_before_notify (fetchIds : String → List String)
    (fetchDetail : String → Option MatchDetail) (clock : String → Int)
    (players : List PlayerEntry) (store : List ResultRow)
    (session_id : Int) (start_dt now : Int) (alert : AlertState)
    (wallclock : Int) (i j : Nat) (ei ej : PollEvent)
    (hi : ((runCycle fetchIds fetchDetail clock players store session_id
      start_dt now alert wallclock).trace)[i]? = some ei)
    (hins : ei.isInsert = true)
    (hj : ((runCycle fetchIds fetchDetail clock players store session_id
      start_dt now alert wallclock).trace)[j]? = some ej)
    (hnot : ej.isNotify = true) : i < j := by
  unfold runCycle at hi hj
  simp only [] at hi hj
  set acc := pollPlayers fetchIds fetchDetail clock session_id start_dt now
    players store with hacc
  cases hlast : acc.events.getLast? with
  | none =>
    rw [hlast] at hj
    dsimp only at hj
    have hmem : ej ∈ acc.trace := List.getElem?_mem hj
    have := pollPlayers_trace_insert fetchIds fetchDetail clock session_id
      start_dt now players store ej (hacc ▸ hmem)
    cases ej <;> simp_all [PollEvent.isInsert, PollEvent.isNotify]
  | some e =>
    rw [hlast] at hi hj
    dsimp only at hi hj
    by_cases hjL : j < acc.trace.length
    · rw [List.getElem?_append_left hjL] at hj
      have hmem : ej ∈ acc.trace := List.getElem?_mem hj
      have := pollPlayers_trace_insert fetchIds fetchDetail clock session_id
        start_dt now players store ej (hacc ▸ hmem)
      cases ej <;> simp_all [PollEvent.isInsert, PollEvent.isNotify]
    · push_neg at hjL
      by_cases hiL : i < acc.trace.length
      · omega
      · push_neg at hiL
        exfalso
        rw [List.getElem?_append_right hiL] at hi
        rcases Nat.lt_or_ge (i - acc.trace.length) 1 with h1 | h1
        · have h0 : i - acc.trace.length = 0 := by omega
          rw [h0] at hi
          simp only [List.getElem?_cons_zero, Option.some.injEq] at hi
          rw [← hi] at hins
          simp [PollEvent.isInsert] at hins
        · rw [List.getElem?_eq_none (by simpa using h1)] at hi
          exact Option.noConfusion hi

/-- Witness for `C6_persist_before_notify`: a concrete cycle whose
trace is one insert batch followed by one notify. -/
theorem C6_persist_before_notify_witness :
    ((runCycle (fun _ => ["M1"])
        (fun _ => some ⟨⟨some 420, some 60000, none, [⟨"PU", some true⟩]⟩⟩)
        (fun _ => 50) [⟨some "Kim", "p1", "PU", "A"⟩] [] 1 0 100000
        ⟨0, ""⟩ 100000).trace)[0]? =
      some (PollEvent.insertBatch [⟨1, "p1", "M1", true, 60000⟩]) ∧
    (PollEvent.insertBatch [⟨1, "p1", "M1", true, 60000⟩]).isInsert = true ∧
    ((runCycle (fun _ => ["M1"])
        (fun _ => some ⟨⟨some 420, some 60000, none, [⟨"PU", some true⟩]⟩⟩)
        (fun _ => 50) [⟨some "Kim", "p1", "PU", "A"⟩] [] 1 0 100000
        ⟨0, ""⟩ 100000).trace)[1]? =
      some (PollEvent.notify "Kim 승리") ∧
    (PollEvent.notify "Kim 승리").isNotify = true ∧
    (0 : Nat) < 1 :=
  ⟨rfl, rfl, rfl, rfl,
   C6_persist_before_notify (fun _ => ["M1"])
     (fun _ => some ⟨⟨some 420, some 60000, none, [⟨"PU", some true⟩]⟩⟩)
     (fun _ => 50) [⟨some "Kim", "p1", "PU", "A"⟩] [] 1 0 100000
     ⟨0, ""⟩ 100000 0 1 _ _ rfl rfl rfl rfl⟩

/-! ## C7 -/

/-- C7: once `ended_at` is set on the session, a tick performs no
external fetches (`ext = []`), writes no results (the store is
returned unchanged), and leaves the alert state and poll cadence
marker untouched: `do_poll` is false because `not ended_at` fails. -/
theorem C7_ended_session_frozen (fetchIds : String → List String)
    (fetchDetail : String → Option MatchDetail) (clock : String → Int)
    (sess : Session) (players : List PlayerEntry) (store : List ResultRow)
    (alert : AlertState) (last_poll_ts wallclock now : Int) (e : Int)
    (hend : sess.ended_at = some e) :
    tick fetchIds fetchDetail clock sess players store alert
        last_poll_ts wallclock now =
      ⟨store, alert, last_poll_ts, [], []⟩ := by
  unfold tick
  rw [hend]
  simp

/-- Witness for `C7_ended_session_frozen` on a concrete ended
session. -/
theorem C7_ended_session_frozen_witness :
    (⟨1, "t", 10, "A", "B", some 0, some 5⟩ : Session).ended_at = some 5 ∧
    tick (fun _ => ["M1"]) (fun _ => none) (fun _ => 0)
        ⟨1, "t", 10, "A", "B", some 0, some 5⟩
        [⟨some "Kim", "p1", "PU", "A"⟩] [⟨1, "z", "Z", true, 0⟩]
        ⟨7, "x"⟩ 0 100 100 =
      ⟨[⟨1, "z", "Z", true, 0⟩], ⟨7, "x"⟩, 0, [], []⟩ :=
  ⟨rfl, C7_ended_session_frozen (fun _ => ["M1"]) (fun _ => none) (fun _ => 0)
    ⟨1, "t", 10, "A", "B", some 0, some 5⟩ [⟨some "Kim", "p1", "PU", "A"⟩]
    [⟨1, "z", "Z", true, 0⟩] ⟨7, "x"⟩ 0 100 100 5 rfl⟩

/-! ## C8 -/

/-- C8: after `recordEvent` at time `t0` the notification is active
immediately (at `t0` itself), it is inactive at every time at least
`ALERT_SHOW_SEC` after `t0`, and inactivity is monotone: once inactive
it never reactivates without a new `recordEvent` (the expiry stored in
the state never changes by itself). -/
theorem C8_notification_freshness (st : AlertState) (text : String)
    (t0 t tlater : Int) :
    show_alert t0 (recordEvent t0 text st) = true ∧
    (t0 + ALERT_SHOW_SEC ≤ t → show_alert t (recordEvent t0 text st) = false) ∧
    (t ≤ tlater → show_alert t (recordEvent t0 text st) = false →
      show_alert tlater (recordEvent t0 text st) = false) := by
  simp only [show_alert, recordEvent, ALERT_SHOW_SEC, decide_eq_true_eq,
    decide_eq_false_iff_not, not_lt]
  refine ⟨by omega, fun h => by omega, fun h1 h2 => by omega⟩

/-- Witness for `C8_notification_freshness` at concrete times. -/
theorem C8_notification_freshness_witness :
    show_alert 10 (recordEvent 10 "x" ⟨0, ""⟩) = true ∧
    ((10 : Int) + ALERT_SHOW_SEC ≤ 14 ∧
      show_alert 14 (recordEvent 10 "x" ⟨0, ""⟩) = false) ∧
    ((14 : Int) ≤ 20 ∧ show_alert 20 (recordEvent 10 "x" ⟨0, ""⟩) = false) :=
  ⟨(C8_notification_freshness ⟨0, ""⟩ "x" 10 14 20).1,
   ⟨by decide, (C8_notification_freshness ⟨0, ""⟩ "x" 10 14 20).2.1 (by decide)⟩,
   ⟨by decide, (C8_notification_freshness ⟨0, ""⟩ "x" 10 14 20).2.2 (by decide)
     ((C8_notification_freshness ⟨0, ""⟩ "x" 10 14 20).2.1 (by decide))⟩⟩

/-! ## C9 -/

/-- C9 counterexample: `create_session` makes no check against an
existing active session, so creating a session while the session
created first is not yet ended yields TWO sessions with
`ended_at = null`, refuting the claimed at-most-one-active invariant. -/
theorem C9_counterexample :
    countActive (create_session [] "s1" 180 "RED" "BLUE") = 1 ∧
    countActive (create_session (create_session [] "s1" 180 "RED" "BLUE")
      "s2" 180 "RED" "BLUE") = 2 :=
  ⟨rfl, rfl⟩

/-- C9 (amended): the code enforces neither part of the invariant:
`create_session` unconditionally appends a session with
`ended_at = null` (so the number of active sessions always grows by
one, and creating while another session is active yields two active
sessions), and `start_session` unconditionally overwrites `started_at`
(so it is not set at most once: after two calls the stored value is the
second timestamp). -/
theorem C9_no_lifecycle_guards (store : List Session) (title : String)
    (dm : Int) (a b : String) (sid t1 t2 : Int) :
    countActive (create_session store title dm a b) = countActive store + 1 ∧
    (∀ s ∈ start_session (start_session store sid t1) sid t2,
      s.id = sid → s.started_at = some t2) := by
  constructor
  · unfold countActive create_session
    rw [List.filter_append]
    simp
  · intro s hs hsid
    unfold start_session at hs
    rw [List.map_map] at hs
    rcases List.mem_map.mp hs with ⟨s0, hs0, heq⟩
    by_cases h0 : s0.id = sid
    · rw [← heq]
      simp [Function.comp, h0]
    · exfalso
      rw [← heq] at hsid
      simp [Function.comp, h0] at hsid

/-- Witness for `C9_no_lifecycle_guards` on a concrete store. -/
theorem C9_no_lifecycle_guards_witness :
    countActive (create_session [⟨1, "t", 180, "A", "B", none, none⟩] "x" 60 "A" "B") =
      countActive [⟨1, "t", 180, "A", "B", none, none⟩] + 1 ∧
    ((⟨1, "t", 180, "A", "B", some 9, none⟩ : Session) ∈
        start_session (start_session [⟨1, "t", 180, "A", "B", none, none⟩] 1 5) 1 9 ∧
      (⟨1, "t", 180, "A", "B", some 9, none⟩ : Session).started_at = some 9) :=
  ⟨(C9_no_lifecycle_guards [⟨1, "t", 180, "A", "B", none, none⟩] "x" 60 "A" "B" 1 5 9).1,
   by decide,
   (C9_no_lifecycle_guards [⟨1, "t", 180, "A", "B", none, none⟩] "x" 60 "A" "B" 1 5 9).2
     ⟨1, "t", 180, "A", "B", some 9, none⟩ (by decide) rfl⟩
